import Mathlib

/-!
Shallow embedding of the rtspSERVER relay orchestration core
(src/src/services/StreamManager.ts, src/src/services/WebSocketService.ts,
src/src/middleware/validation.ts) and proofs about its behaviour.

Conventions:
  * TypeScript numbers that are always nonnegative integers in the source
    (ids, ports, slot indices, grid sizes, pixel sizes) are modelled as `Nat`.
  * Nullable database columns are modelled as `Option`.
  * A JavaScript `Map` is modelled as an association list in insertion
    order (`Map.set` on a fresh key appends; `Map.delete` filters).
  * `throw`/`try`/`catch` is modelled with `Except String`.
  * The `resolution` column is the string "WxH"; `startOutputStream`
    splits it with `resolution.split('x').map(Number)`.  The embedding
    carries the two numeric components `width`/`height` directly.
-/

deriving instance DecidableEq for Except

namespace RtspServer

/-- One row of the mapping query in `startOutputStream`
    (stream_mappings joined with input_streams). -/
structure MappingRow where
  input_stream_id : Nat
  slot_position : Nat
  rtsp_url : String
  username : Option String
  password : Option String
deriving DecidableEq, Repr

/-- One row of `output_streams` joined with its layout template, as read
    and written by StreamManager and the status broadcaster. -/
structure OutputStreamRow where
  name : String
  output_port : Option Nat
  output_url : Option String
  status : String
  last_error : Option String
  width : Nat
  height : Nat
  framerate : Nat
  bitrate : String
  grid_rows : Nat
  grid_cols : Nat
deriving DecidableEq, Repr

/-- One row of `input_streams` as read by the status broadcaster. -/
structure InputStreamRow where
  name : String
  status : String
  last_error : Option String
deriving DecidableEq, Repr

/-- The persisted state the core reads and writes, keyed by row id. -/
structure Db where
  output_streams : List (Nat × OutputStreamRow)
  stream_mappings : List (Nat × MappingRow)  -- fst = output_stream_id
  input_streams : List (Nat × InputStreamRow)
deriving DecidableEq, Repr

/-- interface StreamMapping (StreamManager.ts). -/
structure StreamMapping where
  inputStreamId : Nat
  inputUrl : String
  slotPosition : Nat
  gridRows : Nat
  gridCols : Nat
deriving DecidableEq, Repr

/-- interface OutputStreamConfig (StreamManager.ts); `resolution` is
    carried as the `width`/`height` pair it is split into. -/
structure OutputStreamConfig where
  id : Nat
  name : String
  outputPort : Nat
  width : Nat
  height : Nat
  framerate : Nat
  bitrate : String
  mappings : List StreamMapping
deriving DecidableEq, Repr

/-- A spawned ffmpeg child process: its (model) pid, the output port in
    its publish URL, and the rendered argument list. -/
structure Proc where
  pid : Nat
  outputPort : Nat
  args : List String
deriving DecidableEq, Repr

/-- `this.activeStreams : Map<number, ChildProcess>` in insertion order. -/
abbrev ActiveStreams := List (Nat × Proc)

/-- `Map.get` (the source always stores non-null processes, so `get`
    truthiness and `has` coincide). -/
def mapLookup (m : ActiveStreams) (k : Nat) : Option Proc :=
  (m.find? (fun p => p.fst == k)).map (fun p => p.snd)

/-- `Map.has`. -/
def mapHas (m : ActiveStreams) (k : Nat) : Bool :=
  (mapLookup m k).isSome

/-- `Map.delete`. -/
def mapDelete (m : ActiveStreams) (k : Nat) : ActiveStreams :=
  m.filter (fun p => p.fst != k)

/-- `Map.set`: replaces in place when the key exists, else appends. -/
def mapSet (m : ActiveStreams) (k : Nat) (v : Proc) : ActiveStreams :=
  if mapHas m k then m.map (fun p => if p.fst == k then (k, v) else p)
  else m ++ [(k, v)]

/-- `Map.values()` in insertion order. -/
def mapValues (m : ActiveStreams) : List Proc := m.map (fun p => p.snd)

/-- A rectangle `{x, y, w, h}` of the grid geometry computed inside
    `buildFilterComplex` (position from the xstack layout, size from the
    scale stage). -/
structure Rect where
  x : Nat
  y : Nat
  w : Nat
  h : Nat
deriving DecidableEq, Repr

/-- The per-mapping rectangles of `buildFilterComplex`: cell size
    `floor(width/gridCols) × floor(height/gridRows)` (the scale stage,
    line 209) and origin `(slotPosition % gridCols * cellWidth,
    slotPosition / gridCols * cellHeight)` (the xstack layout,
    lines 213-220).  Grid dimensions are taken from the first mapping,
    exactly as in the source (lines 200-201). -/
def layoutRects (config : OutputStreamConfig) : List Rect :=
  match config.mappings with
  | [] => []
  | m0 :: _ =>
    let gridRows := m0.gridRows
    let gridCols := m0.gridCols
    let cellWidth := config.width / gridCols
    let cellHeight := config.height / gridRows
    config.mappings.map (fun m =>
      { x := (m.slotPosition % gridCols) * cellWidth
        y := (m.slotPosition / gridCols) * cellHeight
        w := cellWidth
        h := cellHeight })

/-- `buildFilterComplex` (StreamManager.ts lines 191-226), producing the
    ffmpeg filter string; `throw` is `Except.error`. -/
def buildFilterComplex (config : OutputStreamConfig) : Except String String :=
  match config.mappings with
  | [] => Except.error "No input streams provided"
  | m0 :: _ =>
    let gridRows := m0.gridRows
    let gridCols := m0.gridCols
    let cellWidth := config.width / gridCols
    let cellHeight := config.height / gridRows
    let scaleFilter := String.join (config.mappings.enum.map (fun p =>
      let i := p.fst
      s!"[{i}:v]scale={cellWidth}:{cellHeight},setsar=1[v{i}];"))
    let layoutPositions := config.mappings.map (fun m =>
      let row := m.slotPosition / gridCols
      let col := m.slotPosition % gridCols
      let x := col * cellWidth
      let y := row * cellHeight
      s!"{x}_{y}")
    let inputLabels := String.join (config.mappings.enum.map (fun p =>
      let i := p.fst
      s!"[v{i}]"))
    let n := config.mappings.length
    let positions := String.intercalate "|" layoutPositions
    Except.ok (scaleFilter ++ inputLabels ++ s!"xstack=inputs={n}:layout={positions}[out]")

/-- `buildRtspUrl`: inserts `user:pass@` after the scheme when both
    credentials are present and non-empty (JS falsiness of `undefined`,
    `null` and `""`); the WHATWG URL setter is modelled as plain
    insertion after `"://"`. -/
def buildRtspUrl (baseUrl : String) (username password : Option String) : String :=
  match username, password with
  | some u, some p =>
    if u = "" || p = "" then baseUrl
    else
      match baseUrl.splitOn "://" with
      | [scheme, rest] => scheme ++ "://" ++ u ++ ":" ++ p ++ "@" ++ rest
      | _ => baseUrl
  | _, _ => baseUrl

/-- The argument list assembled by `buildFFmpegProcess`
    (lines 144-172); the `-s` value is the original resolution string
    `"WxH"`. -/
def buildFFmpegArgs (config : OutputStreamConfig) : Except String (List String) :=
  let inputArgs := (config.mappings.map (fun m =>
    ["-rtsp_transport", "tcp", "-i", m.inputUrl])).flatten
  match buildFilterComplex config with
  | Except.error e => Except.error e
  | Except.ok filterComplex =>
    let w := config.width
    let h := config.height
    let port := config.outputPort
    let name := config.name
    Except.ok (inputArgs ++
      ["-filter_complex", filterComplex,
       "-map", "[out]",
       "-c:v", "libx264",
       "-preset", "ultrafast",
       "-tune", "zerolatency",
       "-b:v", config.bitrate,
       "-r", toString config.framerate,
       "-s", s!"{w}x{h}",
       "-f", "rtsp",
       "-rtsp_transport", "tcp",
       s!"rtsp://localhost:{port}/{name}"])

/-- `getNextAvailablePort` (lines 239-252).  The source computes
    `Array.from(this.activeStreams.values()).map((_, id) => this.basePort + id)`;
    the second argument of the `Array.map` callback is the ARRAY INDEX,
    so `usedPorts` is `[basePort+0, ..., basePort+(n-1)]` for `n` live
    entries, independent of any port actually in use. -/
def getNextAvailablePort (basePort : Nat) (activeStreams : ActiveStreams) : Except String Nat :=
  let usedPorts := (mapValues activeStreams).enum.map (fun p => basePort + p.fst)
  match (List.range 1000).find? (fun i => !(usedPorts.contains (basePort + i))) with
  | some i => Except.ok (basePort + i)
  | none => Except.error "No available ports for output stream"

/-- The ports actually bound by live processes (what the spec calls the
    bound set): each tracked process's publish port. -/
def boundPorts (activeStreams : ActiveStreams) : List Nat :=
  (mapValues activeStreams).map (fun p => p.outputPort)

/-! ### Database access helpers (the SQL used by StreamManager) -/

/-- `SELECT os.*, lt.grid_rows, lt.grid_cols ... WHERE os.id = $1`. -/
def dbGetStream (db : Db) (id : Nat) : Option OutputStreamRow :=
  ((db.output_streams.find? (fun p => p.fst == id)).map (fun p => p.snd))

/-- Stable insertion of a mapping row in ascending `slot_position`. -/
def insertBySlot (m : MappingRow) : List MappingRow → List MappingRow
  | [] => [m]
  | n :: ns =>
    if m.slot_position < n.slot_position then m :: n :: ns
    else n :: insertBySlot m ns

/-- Stable sort by `slot_position` (the query's `ORDER BY`). -/
def sortBySlot : List MappingRow → List MappingRow
  | [] => []
  | m :: ms => insertBySlot m (sortBySlot ms)

/-- `SELECT ... FROM stream_mappings ... WHERE output_stream_id = $1
    ORDER BY slot_position`. -/
def dbGetMappings (db : Db) (id : Nat) : List MappingRow :=
  sortBySlot ((db.stream_mappings.filter (fun p => p.fst == id)).map (fun p => p.snd))

/-- `UPDATE output_streams SET ... WHERE id = $1` applied row-wise. -/
def dbUpdateRow (db : Db) (id : Nat) (f : OutputStreamRow → OutputStreamRow) : Db :=
  { db with output_streams :=
      db.output_streams.map (fun p => if p.fst == id then (p.fst, f p.snd) else p) }

/-- The persisted `status` of an output stream. -/
def dbGetStatus (db : Db) (id : Nat) : Option String :=
  (dbGetStream db id).map (fun r => r.status)

/-! ### WebSocketService (status broadcaster) -/

/-- A connected websocket client (`readyStateOpen` models
    `readyState === WebSocket.OPEN`). -/
structure WsClient where
  userId : Nat
  readyStateOpen : Bool
deriving DecidableEq, Repr

/-- An input row of the snapshot query
    (`SELECT id, name, status, last_error FROM input_streams`). -/
structure InStatusRow where
  id : Nat
  name : String
  status : String
  last_error : Option String
deriving DecidableEq, Repr

/-- An output row of the snapshot query
    (`SELECT id, name, status, last_error, output_url FROM output_streams`). -/
structure OutStatusRow where
  id : Nat
  name : String
  status : String
  last_error : Option String
  output_url : Option String
deriving DecidableEq, Repr

/-- The `data` payload of the periodic broadcast. -/
structure SnapshotData where
  inputStreams : List InStatusRow
  outputStreams : List OutStatusRow
  timestamp : Nat
deriving DecidableEq, Repr

/-- The message built in `startStreamMonitoring` every interval tick:
    `{ type: 'stream_status', data: { inputStreams, outputStreams, timestamp } }`. -/
structure MonitorMessage where
  type : String
  data : SnapshotData
deriving DecidableEq, Repr

/-- The snapshot message assembled on one tick of
    `startStreamMonitoring` (WebSocketService.ts lines 125-146); `now`
    models `new Date().toISOString()`. -/
def monitorMessage (db : Db) (now : Nat) : MonitorMessage :=
  { type := "stream_status"
    data :=
      { inputStreams := db.input_streams.map (fun p =>
          { id := p.fst, name := p.snd.name, status := p.snd.status
            last_error := p.snd.last_error })
        outputStreams := db.output_streams.map (fun p =>
          { id := p.fst, name := p.snd.name, status := p.snd.status
            last_error := p.snd.last_error, output_url := p.snd.output_url })
        timestamp := now } }

/-- `broadcast` (lines 105-112): sends the message to every client in
    the set whose socket is OPEN; returns the deliveries made. -/
def broadcast (clients : List WsClient) (msg : MonitorMessage) : List (Nat × MonitorMessage) :=
  (clients.filter (fun c => c.readyStateOpen)).map (fun c => (c.userId, msg))

/-- One tick of the monitoring interval: read both status tables, build
    the snapshot, broadcast it. -/
def monitorTick (db : Db) (clients : List WsClient) (now : Nat) : List (Nat × MonitorMessage) :=
  broadcast clients (monitorMessage db now)

/-- A `{ type: 'stream_event', ... }` message as built by
    `notifyStreamEvent` (lines 153-162).  Note that nothing in
    StreamManager ever calls it. -/
structure EventMessage where
  type : String
  eventType : String
  streamType : String
  streamId : Nat
  timestamp : Nat
deriving DecidableEq, Repr

/-- `notifyStreamEvent`: builds the event message and broadcasts it. -/
def notifyStreamEvent (clients : List WsClient) (eventType streamType : String)
    (streamId : Nat) (now : Nat) : List (Nat × EventMessage) :=
  let msg : EventMessage :=
    { type := "stream_event", eventType := eventType, streamType := streamType
      streamId := streamId, timestamp := now }
  (clients.filter (fun c => c.readyStateOpen)).map (fun c => (c.userId, msg))

/-! ### Request validation (middleware/validation.ts) -/

/-- `schemas.createMapping`'s constraint on `slotPosition`:
    `Joi.number().integer().min(0).required()` — an integer no smaller
    than 0, with NO upper bound. -/
def slotPositionValid (slotPosition : Int) : Bool :=
  0 ≤ slotPosition

/-! ### The supervisor state and its transitions (StreamManager) -/

/-- The mutable state the StreamManager transitions act on: the
    persisted tables, the `activeStreams` registry, the configured base
    port, a fresh-pid counter for `spawn`, the log of pids that have
    been sent SIGTERM, and the log of event messages the supervisor has
    handed to the observer channel (none of its code paths produce
    any). -/
structure World where
  db : Db
  mgr : ActiveStreams
  basePort : Nat
  nextPid : Nat
  signals : List Nat
  sentEvents : List EventMessage
deriving DecidableEq, Repr

/-- `stopOutputStream` (lines 119-135): if the registry holds a process
    for the id, SIGTERM it, delete the registry entry and persist
    status `'stopped'`; otherwise do nothing. -/
def stopOutputStream (w : World) (id : Nat) : World × Except String Unit :=
  match mapLookup w.mgr id with
  | none => (w, Except.ok ())
  | some proc =>
    ({ w with
        mgr := mapDelete w.mgr id
        signals := w.signals ++ [proc.pid]
        db := dbUpdateRow w.db id (fun r => { r with status := "stopped" }) },
     Except.ok ())

/-- The `catch` block of `startOutputStream` (lines 108-115): persist
    status `'error'` with the failure message, then rethrow. -/
def dbSetStartError (w : World) (id : Nat) (msg : String) : World × Except String Unit :=
  ({ w with db := dbUpdateRow w.db id (fun r =>
      { r with status := "error", last_error := some msg }) },
   Except.error msg)

/-- `stream.output_port || this.getNextAvailablePort()` (line 75): JS
    `||` treats `null`/`undefined` and `0` as falsy, so only a present
    non-zero persisted port short-circuits the allocator. -/
def resolveOutputPort (basePort : Nat) (mgr : ActiveStreams)
    (persisted : Option Nat) : Except String Nat :=
  match persisted with
  | some p => if p = 0 then getNextAvailablePort basePort mgr else Except.ok p
  | none => getNextAvailablePort basePort mgr

/-- The `config` object assembled at lines 72-86. -/
def buildConfig (id : Nat) (stream : OutputStreamRow) (outputPort : Nat)
    (rows : List MappingRow) : OutputStreamConfig :=
  { id := id, name := stream.name, outputPort := outputPort
    width := stream.width, height := stream.height
    framerate := stream.framerate, bitrate := stream.bitrate
    mappings := rows.map (fun row =>
      { inputStreamId := row.input_stream_id
        inputUrl := buildRtspUrl row.rtsp_url row.username row.password
        slotPosition := row.slot_position
        gridRows := stream.grid_rows
        gridCols := stream.grid_cols }) }

/-- Lines 94-107: spawn the process (fresh pid), register it in the
    map, persist status `'running'`, the port and the output URL. -/
def spawnAndRegister (w : World) (id : Nat) (config : OutputStreamConfig)
    (args : List String) : World × Except String Unit :=
  let proc : Proc := { pid := w.nextPid, outputPort := config.outputPort, args := args }
  let port := config.outputPort
  let name := config.name
  let outputUrl := s!"rtsp://localhost:{port}/{name}"
  ({ w with
      mgr := mapSet w.mgr id proc
      nextPid := w.nextPid + 1
      db := dbUpdateRow w.db id (fun r =>
        { r with status := "running", output_port := some config.outputPort
                 output_url := some outputUrl }) },
   Except.ok ())

/-- `startOutputStream` (lines 39-117).

    1. load the stream row (joined with its layout) — `'Output stream
       not found'` if absent;
    2. load the mappings — `'No input streams mapped to this output'`
       if empty;
    3. build the config; `outputPort` is
       `stream.output_port || this.getNextAvailablePort()` (JS `||`:
       `null` and `0` are falsy, so only a present non-zero persisted
       port short-circuits);
    4. if the registry already holds the id, `stopOutputStream` it;
    5. build the ffmpeg arguments and spawn (fresh pid), register the
       process, persist status `'running'` with port and URL.
    Any thrown error is routed through the catch block. -/
def startOutputStream (w : World) (id : Nat) : World × Except String Unit :=
  match dbGetStream w.db id with
  | none => dbSetStartError w id "Output stream not found"
  | some stream =>
    if (dbGetMappings w.db id).isEmpty then
      dbSetStartError w id "No input streams mapped to this output"
    else
      match resolveOutputPort w.basePort w.mgr stream.output_port with
      | Except.error e => dbSetStartError w id e
      | Except.ok outputPort =>
        let config := buildConfig id stream outputPort (dbGetMappings w.db id)
        -- Stop existing stream if running
        let w1 := if mapHas w.mgr id then (stopOutputStream w id).fst else w
        match buildFFmpegArgs config with
        | Except.error e => dbSetStartError w1 id e
        | Except.ok args => spawnAndRegister w1 id config args

/-- The `process.on('close', ...)` handler installed by
    `buildFFmpegProcess` (lines 183-186): its entire effect on the
    system state is `this.activeStreams.delete(config.id)` (plus a
    console log). -/
def onFFmpegClose (id : Nat) (w : World) : World :=
  { w with mgr := mapDelete w.mgr id }

/-! ### Concrete fixtures used by the scenario theorems -/

/-- Output stream 1: a 2×2 grid on a 1920×1080 canvas with a persisted
    `output_port` of 8555 (e.g. from an earlier run). -/
def demoRow1 : OutputStreamRow :=
  { name := "quad", output_port := some 8555, output_url := none
    status := "stopped", last_error := none
    width := 1920, height := 1080, framerate := 25, bitrate := "2000k"
    grid_rows := 2, grid_cols := 2 }

/-- Output stream 2: same layout, no persisted port. -/
def demoRow2 : OutputStreamRow :=
  { name := "pair", output_port := none, output_url := none
    status := "stopped", last_error := none
    width := 1920, height := 1080, framerate := 25, bitrate := "2000k"
    grid_rows := 2, grid_cols := 2 }

/-- A mapping row for input `i` at slot `s` (no credentials). -/
def demoMapping (i s : Nat) : MappingRow :=
  { input_stream_id := i, slot_position := s
    rtsp_url := "rtsp://camera/stream", username := none, password := none }

/-- Output stream 3: exists but has no mappings at all. -/
def demoRow3 : OutputStreamRow :=
  { name := "lone", output_port := none, output_url := none
    status := "stopped", last_error := none
    width := 1920, height := 1080, framerate := 25, bitrate := "2000k"
    grid_rows := 2, grid_cols := 2 }

/-- The persisted tables: streams 1-3, four mappings (slots 0-3)
    for stream 1, one mapping for stream 2, none for stream 3, one
    input source. -/
def demoDb : Db :=
  { output_streams := [(1, demoRow1), (2, demoRow2), (3, demoRow3)]
    stream_mappings :=
      [(1, demoMapping 10 0), (1, demoMapping 11 1),
       (1, demoMapping 12 2), (1, demoMapping 13 3),
       (2, demoMapping 10 0)]
    input_streams := [(7, { name := "cam", status := "connected", last_error := none })] }

/-- The initial supervisor state: empty registry, base port 8554. -/
def demoWorld0 : World :=
  { db := demoDb, mgr := [], basePort := 8554, nextPid := 0
    signals := [], sentEvents := [] }

/-- The state after starting stream 1 (one live job). -/
def demoWorldLive : World := (startOutputStream demoWorld0 1).fst

/-- The state after then starting stream 2 (two live jobs). -/
def demoWorldTwo : World := (startOutputStream demoWorldLive 2).fst

/-- The C1 scenario config: 2×2 grid, 1920×1080 canvas, four sources
    mapped to slots 0-3. -/
def demo2x2Config : OutputStreamConfig :=
  { id := 1, name := "quad", outputPort := 8555
    width := 1920, height := 1080, framerate := 25, bitrate := "2000k"
    mappings :=
      [{ inputStreamId := 10, inputUrl := "rtsp://camera/stream"
         slotPosition := 0, gridRows := 2, gridCols := 2 },
       { inputStreamId := 11, inputUrl := "rtsp://camera/stream"
         slotPosition := 1, gridRows := 2, gridCols := 2 },
       { inputStreamId := 12, inputUrl := "rtsp://camera/stream"
         slotPosition := 2, gridRows := 2, gridCols := 2 },
       { inputStreamId := 13, inputUrl := "rtsp://camera/stream"
         slotPosition := 3, gridRows := 2, gridCols := 2 }] }

/-- A config whose single mapping names slot 4 of a 2×2 grid — out of
    range, since the grid has slots 0-3. -/
def badSlotConfig : OutputStreamConfig :=
  { id := 1, name := "quad", outputPort := 8555
    width := 1920, height := 1080, framerate := 25, bitrate := "2000k"
    mappings :=
      [{ inputStreamId := 10, inputUrl := "rtsp://camera/stream"
         slotPosition := 4, gridRows := 2, gridCols := 2 }] }

/-! ### Association-list and database lemmas -/

theorem mapLookup_mapDelete (m : ActiveStreams) (k : Nat) :
    mapLookup (mapDelete m k) k = none := by
  induction m with
  | nil => rfl
  | cons a t ih =>
    by_cases h : a.fst = k
    · simp [mapDelete, List.filter_cons, h, mapLookup, ih]
    · simp only [mapDelete, List.filter_cons] at ih ⊢
      simp only [mapLookup, List.find?] at ih ⊢
      simp [h, ih]

theorem mapHas_mapDelete (m : ActiveStreams) (k : Nat) :
    mapHas (mapDelete m k) k = false := by
  simp [mapHas, mapLookup_mapDelete]

theorem filter_mapDelete (m : ActiveStreams) (k : Nat) :
    (mapDelete m k).filter (fun p => p.fst == k) = [] := by
  induction m with
  | nil => rfl
  | cons a t ih =>
    by_cases h : a.fst = k
    · simp [mapDelete, List.filter_cons, h, ih]
    · simp only [mapDelete, List.filter_cons] at ih ⊢
      simp [h, ih]

theorem mapLookup_append_single (l : ActiveStreams) (k : Nat) (v : Proc)
    (h : mapLookup l k = none) : mapLookup (l ++ [(k, v)]) k = some v := by
  induction l with
  | nil => simp [mapLookup, List.find?]
  | cons a t ih =>
    by_cases ha : a.fst = k
    · rw [mapLookup, List.find?_cons_of_pos _ (by simp [ha])] at h
      simp at h
    · rw [mapLookup, List.cons_append, List.find?_cons_of_neg _ (by simp [ha])]
      rw [mapLookup, List.find?_cons_of_neg _ (by simp [ha])] at h
      exact ih h

theorem mapSet_of_not_has (m : ActiveStreams) (k : Nat) (v : Proc)
    (h : mapHas m k = false) : mapSet m k v = m ++ [(k, v)] := by
  simp [mapSet, h]

theorem find?_update_list (l : List (Nat × OutputStreamRow)) (id : Nat)
    (f : OutputStreamRow → OutputStreamRow) :
    ((l.map (fun p => if p.fst == id then (p.fst, f p.snd) else p)).find?
        (fun p => p.fst == id)).map (fun p => p.snd) =
      ((l.find? (fun p => p.fst == id)).map (fun p => p.snd)).map f := by
  induction l with
  | nil => rfl
  | cons a t ih =>
    by_cases h : a.fst = id
    · simp only [List.map_cons, if_pos (by simp [h] : (a.fst == id) = true)]
      rw [List.find?_cons_of_pos _ (by simp [h]), List.find?_cons_of_pos _ (by simp [h])]
      simp
    · simp only [List.map_cons, if_neg (by simp [h] : ¬(a.fst == id) = true)]
      rw [List.find?_cons_of_neg _ (by simp [h]), List.find?_cons_of_neg _ (by simp [h])]
      exact ih

theorem dbGetStream_dbUpdateRow (db : Db) (id : Nat)
    (f : OutputStreamRow → OutputStreamRow) :
    dbGetStream (dbUpdateRow db id f) id = (dbGetStream db id).map f := by
  simpa only [dbGetStream, dbUpdateRow] using find?_update_list db.output_streams id f

theorem proj_update_list (l : List (Nat × OutputStreamRow)) (id : Nat)
    (f : OutputStreamRow → OutputStreamRow)
    (hf : ∀ r, (f r).output_port = r.output_port ∧ (f r).output_url = r.output_url) :
    (l.map (fun p => if p.fst == id then (p.fst, f p.snd) else p)).map
        (fun p => (p.fst, p.snd.output_port, p.snd.output_url)) =
      l.map (fun p => (p.fst, p.snd.output_port, p.snd.output_url)) := by
  induction l with
  | nil => rfl
  | cons a t ih =>
    simp only [List.map_cons, ih]
    by_cases h : a.fst = id
    · simp [h, (hf a.snd).1, (hf a.snd).2]
    · simp [h]

theorem dbUpdateRow_preserves_port_url (db : Db) (id : Nat)
    (f : OutputStreamRow → OutputStreamRow)
    (hf : ∀ r, (f r).output_port = r.output_port ∧ (f r).output_url = r.output_url) :
    (dbUpdateRow db id f).output_streams.map
        (fun p => (p.fst, p.snd.output_port, p.snd.output_url)) =
      db.output_streams.map (fun p => (p.fst, p.snd.output_port, p.snd.output_url)) := by
  simpa only [dbUpdateRow] using proj_update_list db.output_streams id f hf

theorem buildFFmpegArgs_ok (cfg : OutputStreamConfig) (h : cfg.mappings ≠ []) :
    ∃ a, buildFFmpegArgs cfg = Except.ok a := by
  cases hm : cfg.mappings with
  | nil => exact absurd hm h
  | cons m0 rest =>
    unfold buildFFmpegArgs buildFilterComplex
    rw [hm]
    exact ⟨_, rfl⟩

/-! ### Claim theorems -/

/-- C9: for a job id with no live tracked process, `stopOutputStream`
    is a complete no-op: it returns success and leaves the whole
    state — registry, signalled pids, and every persisted field —
    exactly as it was. -/
theorem stop_without_live_process_is_noop (w : World) (id : Nat)
    (h : mapLookup w.mgr id = none) :
    stopOutputStream w id = (w, Except.ok ()) := by
  simp [stopOutputStream, h]

/-- Witness for C9 at a concrete state: no process for id 1 is tracked
    in `demoWorld0` and stopping it changes nothing. -/
theorem stop_without_live_process_is_noop_witness :
    mapLookup demoWorld0.mgr 1 = none ∧
    stopOutputStream demoWorld0 1 = (demoWorld0, Except.ok ()) :=
  ⟨rfl, stop_without_live_process_is_noop demoWorld0 1 rfl⟩

/-- C7: starting a job that exists but has zero mapped slots fails with
    the empty-layout error; the failure happens before any endpoint is
    consulted and before any process is spawned: the registry, the
    fresh-pid counter and the signal log are untouched, and every
    persisted `output_port`/`output_url` is unchanged — only
    `status`/`last_error` of the job record the error. -/
theorem start_with_no_mappings_fails_clean (w : World) (id : Nat)
    (row : OutputStreamRow) (hrow : dbGetStream w.db id = some row)
    (hmap : dbGetMappings w.db id = []) :
    (startOutputStream w id).snd = Except.error "No input streams mapped to this output" ∧
    (startOutputStream w id).fst.mgr = w.mgr ∧
    (startOutputStream w id).fst.nextPid = w.nextPid ∧
    (startOutputStream w id).fst.signals = w.signals ∧
    (startOutputStream w id).fst.sentEvents = w.sentEvents ∧
    (startOutputStream w id).fst.db.output_streams.map
        (fun p => (p.fst, p.snd.output_port, p.snd.output_url)) =
      w.db.output_streams.map (fun p => (p.fst, p.snd.output_port, p.snd.output_url)) ∧
    dbGetStatus (startOutputStream w id).fst.db id = some "error" := by
  have hstep : startOutputStream w id =
      dbSetStartError w id "No input streams mapped to this output" := by
    simp [startOutputStream, hrow, hmap]
  rw [hstep]
  refine ⟨rfl, rfl, rfl, rfl, rfl, ?_, ?_⟩
  · exact dbUpdateRow_preserves_port_url w.db id _ (fun r => ⟨rfl, rfl⟩)
  · simp [dbSetStartError, dbGetStatus, dbGetStream_dbUpdateRow, hrow]

/-- Witness for C7: stream 3 of the demo database exists and has no
    mappings, and starting it fails exactly as stated. -/
theorem start_with_no_mappings_fails_clean_witness :
    dbGetStream demoWorld0.db 3 = some demoRow3 ∧
    dbGetMappings demoWorld0.db 3 = [] ∧
    (startOutputStream demoWorld0 3).snd =
      Except.error "No input streams mapped to this output" ∧
    (startOutputStream demoWorld0 3).fst.mgr = demoWorld0.mgr ∧
    (startOutputStream demoWorld0 3).fst.nextPid = demoWorld0.nextPid ∧
    dbGetStatus (startOutputStream demoWorld0 3).fst.db 3 = some "error" := by
  have h := start_with_no_mappings_fails_clean demoWorld0 3 demoRow3 (by decide) (by decide)
  exact ⟨by decide, by decide, h.1, h.2.1, h.2.2.1, h.2.2.2.2.2.2⟩

set_option maxRecDepth 16384 in
/-- C1: for a grid of `R` rows and `C` cols on a `W×H` canvas, the
    geometry embedded in `buildFilterComplex` assigns the mapping at
    position `i` (slot `s`) the rectangle of width `W/C` and height
    `H/R` at origin `((s % C) * (W/C), (s / C) * (H/R))` (all integer
    division); in particular, the 2×2 grid on a 1920×1080 canvas with
    slots 0-3 mapped yields four 960×540 rectangles at
    (0,0), (960,0), (0,540), (960,540), and the generated filter
    string places them there via xstack. -/
theorem layout_rect_assignment (cfg : OutputStreamConfig) (R C : Nat)
    (hne : cfg.mappings ≠ [])
    (hgrid : ∀ m ∈ cfg.mappings, m.gridRows = R ∧ m.gridCols = C)
    (hslots : ∀ m ∈ cfg.mappings, m.slotPosition < R * C) :
    (∀ i : Nat, (layoutRects cfg)[i]? = (cfg.mappings[i]?).map (fun m =>
      { x := (m.slotPosition % C) * (cfg.width / C)
        y := (m.slotPosition / C) * (cfg.height / R)
        w := cfg.width / C
        h := cfg.height / R })) ∧
    layoutRects demo2x2Config =
      [{ x := 0, y := 0, w := 960, h := 540 },
       { x := 960, y := 0, w := 960, h := 540 },
       { x := 0, y := 540, w := 960, h := 540 },
       { x := 960, y := 540, w := 960, h := 540 }] ∧
    buildFilterComplex demo2x2Config = Except.ok
      ("[0:v]scale=960:540,setsar=1[v0];[1:v]scale=960:540,setsar=1[v1];" ++
       "[2:v]scale=960:540,setsar=1[v2];[3:v]scale=960:540,setsar=1[v3];" ++
       "[v0][v1][v2][v3]xstack=inputs=4:layout=0_0|960_0|0_540|960_540[out]") := by
  refine ⟨?_, by decide, by decide⟩
  intro i
  cases hm : cfg.mappings with
  | nil => exact absurd hm hne
  | cons m0 rest =>
    have hg0 : m0.gridRows = R ∧ m0.gridCols = C :=
      hgrid m0 (by rw [hm]; exact List.mem_cons_self m0 rest)
    simp only [layoutRects, hm, List.getElem?_map, hg0.1, hg0.2]

/-- Witness for C1: the theorem applied to the 2×2/1920×1080 scenario,
    read off at mapping index 1 (slot 1). -/
theorem layout_rect_assignment_witness :
    demo2x2Config.mappings ≠ [] ∧
    (layoutRects demo2x2Config)[1]? = some { x := 960, y := 0, w := 960, h := 540 } := by
  have h := layout_rect_assignment demo2x2Config 2 2 (by decide) (by decide) (by decide)
  refine ⟨by decide, ?_⟩
  rw [h.1 1]
  decide

set_option maxRecDepth 16384 in
/-- C2: evaluated at the failing input — job 1 live and persisted as
    `running` — the `close` handler installed on the ffmpeg process
    removes the registry entry and does nothing else: the persisted
    tables are bit-for-bit unchanged (status still `running`, no
    diagnostic in `last_error`) and no event message is handed to the
    observers. -/
theorem unsolicited_exit_only_deletes_registry_entry :
    dbGetStatus demoWorldLive.db 1 = some "running" ∧
    mapHas demoWorldLive.mgr 1 = true ∧
    (onFFmpegClose 1 demoWorldLive).db = demoWorldLive.db ∧
    dbGetStatus (onFFmpegClose 1 demoWorldLive).db 1 = some "running" ∧
    (dbGetStream (onFFmpegClose 1 demoWorldLive).db 1).map OutputStreamRow.last_error =
      some none ∧
    (onFFmpegClose 1 demoWorldLive).sentEvents = demoWorldLive.sentEvents ∧
    (onFFmpegClose 1 demoWorldLive).mgr = [] := by
  exact ⟨by decide, by decide, rfl, by decide, by decide, rfl, by decide⟩

set_option maxRecDepth 16384 in
/-- C3: evaluated at the failing trace — start job 1 (reattaches its
    persisted port 8555), then start job 2 (the allocator, which only
    skips `basePort + index` pseudo-ports, hands out 8555 again) — two
    jobs are simultaneously live and persisted as `running` with the
    SAME output port 8555. -/
theorem two_live_jobs_own_same_port :
    (mapLookup demoWorldTwo.mgr 1).map Proc.outputPort = some 8555 ∧
    (mapLookup demoWorldTwo.mgr 2).map Proc.outputPort = some 8555 ∧
    dbGetStatus demoWorldTwo.db 1 = some "running" ∧
    dbGetStatus demoWorldTwo.db 2 = some "running" := by
  exact ⟨by decide, by decide, by decide, by decide⟩

set_option maxRecDepth 16384 in
/-- C4: evaluated at the failing input — a registry holding one live
    job bound to port 8555 — `getNextAvailablePort` returns 8555, a
    port that is already in the bound set: it skips only the
    index-derived pseudo-ports `basePort + i`, never the ports live
    processes actually hold, and (being a pure function of the
    registry) two sequential calls with no intervening change return
    the same port. -/
theorem acquire_returns_already_bound_port :
    getNextAvailablePort 8554 demoWorldLive.mgr = Except.ok 8555 ∧
    boundPorts demoWorldLive.mgr = [8555] ∧
    getNextAvailablePort demoWorldLive.basePort demoWorldLive.mgr = Except.ok 8555 := by
  exact ⟨by decide, by decide, by decide⟩

set_option maxRecDepth 16384 in
/-- C5 counterexample: starting job 1 while it is live neither is a
    no-op nor fails with an already-running error: it returns success,
    the tracked process changes (pid 0 is replaced by the freshly
    spawned pid 1) and the old process is signalled — so the original
    claim's "no-op or `AlreadyRunningError`" disjunction is false. -/
theorem start_on_live_job_restarts_cex :
    mapHas demoWorldLive.mgr 1 = true ∧
    (startOutputStream demoWorldLive 1).snd = Except.ok () ∧
    (mapLookup demoWorldLive.mgr 1).map Proc.pid = some 0 ∧
    (mapLookup (startOutputStream demoWorldLive 1).fst.mgr 1).map Proc.pid = some 1 ∧
    (startOutputStream demoWorldLive 1).fst.signals = [0] := by
  exact ⟨by decide, by decide, by decide, by decide, by decide⟩

set_option maxRecDepth 16384 in
/-- C6 counterexample: a mapping with slot 4 on a 2×2 grid (slots 0-3)
    passes request validation and `buildFilterComplex` accepts it
    without any error, assigning it the rectangle (0,1080,960,540) —
    beyond the 1080-pixel canvas — by the same formula: nothing
    rejects the out-of-range slot. -/
theorem out_of_range_slot_accepted_cex :
    slotPositionValid (Int.ofNat 4) = true ∧
    layoutRects badSlotConfig = [{ x := 0, y := 1080, w := 960, h := 540 }] ∧
    buildFilterComplex badSlotConfig =
      Except.ok "[0:v]scale=960:540,setsar=1[v0];[v0]xstack=inputs=1:layout=0_1080[out]" := by
  exact ⟨by decide, by decide, by decide⟩

/-- C8 counterexample: the message built on a broadcaster tick has
    `type = "stream_status"`, not `type = "snapshot"`, and its stream
    lists and timestamp sit nested under a `data` field. -/
theorem snapshot_message_shape_cex :
    (monitorMessage demoDb 0).type = "stream_status" ∧
    (monitorMessage demoDb 0).type ≠ "snapshot" := by
  exact ⟨rfl, by decide⟩

theorem mapLookup_map_replace (m : ActiveStreams) (k : Nat) (v : Proc)
    (h : mapHas m k = true) :
    mapLookup (m.map (fun p => if p.fst == k then (k, v) else p)) k = some v := by
  induction m with
  | nil => simp [mapHas, mapLookup] at h
  | cons a t ih =>
    by_cases ha : a.fst = k
    · simp only [List.map_cons, if_pos (by simp [ha] : (a.fst == k) = true)]
      rw [mapLookup, List.find?_cons_of_pos _ (by simp)]
      rfl
    · simp only [List.map_cons, if_neg (by simp [ha] : ¬(a.fst == k) = true)]
      rw [mapHas, mapLookup, List.find?_cons_of_neg _ (by simp [ha])] at h
      rw [mapLookup, List.find?_cons_of_neg _ (by simp [ha])]
      exact ih h

theorem mapLookup_mapSet (m : ActiveStreams) (k : Nat) (v : Proc) :
    mapLookup (mapSet m k v) k = some v := by
  by_cases h : mapHas m k = true
  · rw [mapSet, if_pos h]
    exact mapLookup_map_replace m k v h
  · have hn : mapLookup m k = none := by
      cases hl : mapLookup m k
      · rfl
      · exact absurd (by simp [mapHas, hl]) h
    rw [mapSet_of_not_has m k v (by simpa using h)]
    exact mapLookup_append_single m k v hn

/-- Evaluation of the success path of `startOutputStream`: when the
    row exists, at least one mapping exists, and the port resolution
    yields `port`, the start succeeds, the registered process
    publishes to `port`, and `port` is persisted on the job row. -/
theorem start_success_eval (w : World) (id : Nat) (row : OutputStreamRow) (port : Nat)
    (hrow : dbGetStream w.db id = some row)
    (hmap : (dbGetMappings w.db id).isEmpty = false)
    (hport : resolveOutputPort w.basePort w.mgr row.output_port = Except.ok port) :
    (startOutputStream w id).snd = Except.ok () ∧
    (mapLookup (startOutputStream w id).fst.mgr id).map Proc.outputPort = some port ∧
    (dbGetStream (startOutputStream w id).fst.db id).map OutputStreamRow.output_port =
      some (some port) := by
  have hne : (buildConfig id row port (dbGetMappings w.db id)).mappings ≠ [] := by
    simp only [buildConfig, ne_eq, List.map_eq_nil_iff]
    intro hnil
    rw [hnil] at hmap
    simp at hmap
  obtain ⟨args, hargs⟩ := buildFFmpegArgs_ok _ hne
  simp only [buildConfig] at hargs
  refine ⟨?_, ?_, ?_⟩
  · simp [startOutputStream, hrow, hmap, hport, hargs, spawnAndRegister, buildConfig]
  · simp [startOutputStream, hrow, hmap, hport, hargs, spawnAndRegister,
      mapLookup_mapSet, buildConfig]
  · by_cases hlive : mapHas w.mgr id = true
    · obtain ⟨old, hold⟩ : ∃ old, mapLookup w.mgr id = some old := by
        cases hl : mapLookup w.mgr id
        · simp [mapHas, hl] at hlive
        · exact ⟨_, rfl⟩
      simp [startOutputStream, hrow, hmap, hport, hargs, spawnAndRegister, hlive,
        stopOutputStream, hold, dbGetStream_dbUpdateRow, buildConfig]
    · have hlive' : mapHas w.mgr id = false := by simpa using hlive
      simp [startOutputStream, hrow, hmap, hport, hargs, spawnAndRegister, hlive',
        dbGetStream_dbUpdateRow, buildConfig]

/-- C10: when the persisted record of a startable job carries a
    non-null, non-zero `output_port` p, `startOutputStream` reuses p —
    the spawned process publishes to p and p is re-persisted —
    whatever the registry currently holds (the allocator is never able
    to influence the result); the allocator's port q is attached only
    when the persisted port is null or 0. -/
theorem persisted_port_reused (w : World) (id : Nat) (row : OutputStreamRow)
    (hrow : dbGetStream w.db id = some row)
    (hmap : (dbGetMappings w.db id).isEmpty = false) :
    (∀ p, row.output_port = some p → p ≠ 0 →
      (startOutputStream w id).snd = Except.ok () ∧
      (mapLookup (startOutputStream w id).fst.mgr id).map Proc.outputPort = some p ∧
      (dbGetStream (startOutputStream w id).fst.db id).map OutputStreamRow.output_port =
        some (some p)) ∧
    (∀ q, (row.output_port = none ∨ row.output_port = some 0) →
      getNextAvailablePort w.basePort w.mgr = Except.ok q →
      (mapLookup (startOutputStream w id).fst.mgr id).map Proc.outputPort = some q) := by
  constructor
  · intro p hp hp0
    exact start_success_eval w id row p hrow hmap (by simp [resolveOutputPort, hp, hp0])
  · intro q hzero hq
    have hport : resolveOutputPort w.basePort w.mgr row.output_port = Except.ok q := by
      rcases hzero with h0 | h0 <;> simp [resolveOutputPort, h0, hq]
    exact (start_success_eval w id row q hrow hmap hport).2.1

set_option maxRecDepth 16384 in
/-- Witness for C10: job 1 persists port 8555; starting it from the
    empty registry reattaches 8555. -/
theorem persisted_port_reused_witness :
    dbGetStream demoWorld0.db 1 = some demoRow1 ∧
    demoRow1.output_port = some 8555 ∧
    (mapLookup (startOutputStream demoWorld0 1).fst.mgr 1).map Proc.outputPort =
      some 8555 := by
  have h := (persisted_port_reused demoWorld0 1 demoRow1 (by decide) (by decide)).1
    8555 (by decide) (by decide)
  exact ⟨by decide, by decide, h.2.1⟩

/-- C5 amended: a start request for a job already tracked as live is
    neither a no-op nor an error — it is a restart: the existing
    process is signalled to terminate and deregistered, a fresh
    process (pid = the current pid counter) is spawned and becomes the
    single registry entry for the job; two processes are never tracked
    for the job at once. -/
theorem start_on_live_restarts (w : World) (id : Nat)
    (hlive : mapHas w.mgr id = true)
    (hok : (startOutputStream w id).snd = Except.ok ()) :
    (startOutputStream w id).fst.signals =
      w.signals ++ ((mapLookup w.mgr id).map Proc.pid).toList ∧
    (mapLookup (startOutputStream w id).fst.mgr id).map Proc.pid = some w.nextPid ∧
    ((startOutputStream w id).fst.mgr.filter (fun p => p.fst == id)).length = 1 := by
  obtain ⟨old, hold⟩ : ∃ old, mapLookup w.mgr id = some old := by
    cases hl : mapLookup w.mgr id
    · simp [mapHas, hl] at hlive
    · exact ⟨_, rfl⟩
  cases hrow : dbGetStream w.db id with
  | none => simp [startOutputStream, hrow, dbSetStartError] at hok
  | some row =>
    cases hmap : (dbGetMappings w.db id).isEmpty with
    | true => simp [startOutputStream, hrow, hmap, dbSetStartError] at hok
    | false =>
      cases hport : resolveOutputPort w.basePort w.mgr row.output_port with
      | error e => simp [startOutputStream, hrow, hmap, hport, dbSetStartError] at hok
      | ok port =>
        have hne : (buildConfig id row port (dbGetMappings w.db id)).mappings ≠ [] := by
          simp only [buildConfig, ne_eq, List.map_eq_nil_iff]
          intro hnil
          rw [hnil] at hmap
          simp at hmap
        obtain ⟨args, hargs⟩ := buildFFmpegArgs_ok _ hne
        simp only [buildConfig] at hargs
        have hnothas : mapHas (mapDelete w.mgr id) id = false := mapHas_mapDelete w.mgr id
        refine ⟨?_, ?_, ?_⟩
        · simp [startOutputStream, hrow, hmap, hport, hargs, hlive, spawnAndRegister,
            stopOutputStream, hold, buildConfig]
        · simp [startOutputStream, hrow, hmap, hport, hargs, hlive, spawnAndRegister,
            stopOutputStream, hold, mapLookup_mapSet, buildConfig]
        · simp [startOutputStream, hrow, hmap, hport, hargs, hlive, spawnAndRegister,
            stopOutputStream, hold, mapSet_of_not_has _ _ _ hnothas, List.filter_append,
            filter_mapDelete, buildConfig]

set_option maxRecDepth 16384 in
/-- Witness for C5's amended statement: restarting live job 1 signals
    the old pid 0 and tracks the fresh pid 1 as the only entry. -/
theorem start_on_live_restarts_witness :
    mapHas demoWorldLive.mgr 1 = true ∧
    (startOutputStream demoWorldLive 1).fst.signals =
      demoWorldLive.signals ++ ((mapLookup demoWorldLive.mgr 1).map Proc.pid).toList ∧
    ((startOutputStream demoWorldLive 1).fst.mgr.filter (fun p => p.fst == 1)).length = 1 := by
  have h := start_on_live_restarts demoWorldLive 1 (by decide) (by decide)
  exact ⟨by decide, h.1, h.2.2⟩

/-- C6 amended: an out-of-range slot is rejected nowhere: request
    validation accepts every nonnegative integer slot (it carries no
    upper bound and does not know the grid), and for any config with
    at least one mapping `buildFilterComplex` succeeds, emitting
    exactly one rectangle per mapping by the same modular formula —an
    out-of-range slot is placed outside the canvas rather than being
    rejected, clamped or dropped. -/
theorem out_of_range_slot_never_rejected (cfg : OutputStreamConfig)
    (hne : cfg.mappings ≠ []) :
    (∃ s, buildFilterComplex cfg = Except.ok s) ∧
    (layoutRects cfg).length = cfg.mappings.length ∧
    (∀ s : Nat, slotPositionValid (Int.ofNat s) = true) := by
  refine ⟨?_, ?_, ?_⟩
  · cases hm : cfg.mappings with
    | nil => exact absurd hm hne
    | cons m0 rest =>
      unfold buildFilterComplex
      rw [hm]
      exact ⟨_, rfl⟩
  · cases hm : cfg.mappings with
    | nil => exact absurd hm hne
    | cons m0 rest => simp [layoutRects, hm]
  · intro s
    simp only [slotPositionValid, decide_eq_true_eq]
    exact Int.ofNat_nonneg s

/-- Witness for C6's amended statement at the slot-4-on-2×2 config. -/
theorem out_of_range_slot_never_rejected_witness :
    badSlotConfig.mappings ≠ [] ∧
    (layoutRects badSlotConfig).length = badSlotConfig.mappings.length ∧
    slotPositionValid (Int.ofNat 4) = true := by
  have h := out_of_range_slot_never_rejected badSlotConfig (by decide)
  exact ⟨by decide, h.2.1, h.2.2 4⟩

/-- C8 amended: on every tick the broadcaster reads the status of all
    input sources and all relay jobs from the persistence state and
    delivers to every connected observer whose socket is open exactly
    one copy of the full snapshot, a message of shape
    `{type := "stream_status", data := {inputStreams, outputStreams,
    timestamp}}` (not `{type := "snapshot", inputs, outputs,
    timestamp}`). -/
theorem monitor_tick_delivers_snapshot (db : Db) (clients : List WsClient) (now : Nat)
    (c : WsClient) (hc : c ∈ clients) (hopen : c.readyStateOpen = true) :
    (c.userId, monitorMessage db now) ∈ monitorTick db clients now ∧
    (monitorTick db clients now).length =
      (clients.filter (fun x => x.readyStateOpen)).length ∧
    (monitorMessage db now).type = "stream_status" ∧
    (monitorMessage db now).data.timestamp = now ∧
    (monitorMessage db now).data.inputStreams.map (fun r => (r.id, r.status)) =
      db.input_streams.map (fun p => (p.fst, p.snd.status)) ∧
    (monitorMessage db now).data.outputStreams.map (fun r => (r.id, r.status)) =
      db.output_streams.map (fun p => (p.fst, p.snd.status)) := by
  refine ⟨?_, ?_, rfl, rfl, ?_, ?_⟩
  · simp only [monitorTick, broadcast]
    exact List.mem_map.mpr ⟨c, List.mem_filter.mpr ⟨hc, hopen⟩, rfl⟩
  · simp [monitorTick, broadcast]
  · simp [monitorMessage, List.map_map]
  · simp [monitorMessage, List.map_map]

/-- Witness for C8's amended statement: one open observer receives the
    snapshot of the demo database. -/
theorem monitor_tick_delivers_snapshot_witness :
    (⟨5, true⟩ : WsClient) ∈ [(⟨5, true⟩ : WsClient)] ∧
    (5, monitorMessage demoDb 0) ∈ monitorTick demoDb [⟨5, true⟩] 0 := by
  have h := monitor_tick_delivers_snapshot demoDb [⟨5, true⟩] 0 ⟨5, true⟩
    (List.mem_singleton.mpr rfl) rfl
  exact ⟨List.mem_singleton.mpr rfl, h.1⟩

end RtspServer
